import Mathlib

/-!
Verification of the HERMES TPX3 unpacking pipeline's command-line/config/diagnostics
layer against its C++ sources (`src/chermes/src/diagnostics.cpp`,
`src/chermes/src/commandLineParser.cpp`, `configReader.cpp`), plus a spec-modelled
Temporal Sorter (the sorter implementation is not among the available sources).

Machine integers are modelled as `Nat`/`Int` with explicit `% 2^w` at the points
where the C++ code performs narrowing casts; C++ `double` configuration values are
modelled as `Rat`, and the two C++ floating-point parsers (`std::stod`,
`istringstream >> double`) are abstracted as `String → Option Rat` parameters.
Console output (`cout`/`cerr`) is modelled as an explicit list of emitted lines.
-/

/-- Counts and stage timings for one TPX3 file.  Field names follow the
`tpx3FileDiagnostics` struct used by `diagnostics.cpp`; the struct definition
itself lives in the unavailable `structures.h`, so count fields are modelled
from the spec as natural numbers and timings as rationals. -/
structure tpx3FileDiagnostics where
  numberOfDataPackets : Nat
  numberOfBuffers : Nat
  numberOfTDC1s : Nat
  numberOfPixelHits : Nat
  numberOfGTS : Nat
  numberOfTXP3Controls : Nat
  totalHermesTime : Rat
  totalUnpackingTime : Rat
  totalSortingTime : Rat
  totalClusteringTime : Rat
  totalWritingTime : Rat
deriving Repr, DecidableEq

/-- Plain decimal rendering of a rational (used only to build output lines for
the `double`-valued timing fields). -/
def ratStr (q : Rat) : String :=
  toString q.num ++ "/" ++ toString q.den

/-- The value `numberOfUnprocessedPackets` computed at the top of
`printOutUnpackingDiagnostics` (diagnostics.cpp line 75): the total packet count
minus every per-category count, in signed integer arithmetic. -/
def numberOfUnprocessedPackets (d : tpx3FileDiagnostics) : Int :=
  (d.numberOfDataPackets : Int) - d.numberOfBuffers - d.numberOfTDC1s
    - d.numberOfPixelHits - d.numberOfGTS - d.numberOfTXP3Controls

/-- The lines printed by `printOutUnpackingDiagnostics` (diagnostics.cpp
lines 74-91), in order. -/
def printOutUnpackingDiagnostics (d : tpx3FileDiagnostics) : List String :=
  [ "=============== Diagnostics ==============",
    "Total HERMES Time: " ++ ratStr d.totalHermesTime ++ " seconds",
    "Total Unpacking Time: " ++ ratStr d.totalUnpackingTime ++ " seconds",
    "Total Sorting Time: " ++ ratStr d.totalSortingTime ++ " seconds",
    "Total Clustering Time: " ++ ratStr d.totalClusteringTime ++ " seconds",
    "Total Writing Time: " ++ ratStr d.totalWritingTime ++ " seconds",
    "------------------------------------------",
    "Number of data packets: " ++ toString d.numberOfDataPackets,
    "Number of headers packets: " ++ toString d.numberOfBuffers,
    "Number of TDC packets: " ++ toString d.numberOfTDC1s,
    "Number of Pixels packets: " ++ toString d.numberOfPixelHits,
    "Number of Global Time stamp packets: " ++ toString d.numberOfGTS,
    "Number of TPX3 control packets: " ++ toString d.numberOfTXP3Controls,
    "Number of Unknown processed packets: " ++ toString (numberOfUnprocessedPackets d),
    "==========================================" ]

/-- Claim C1: for every file's diagnostics, the sum of the per-category packet
counts (buffers/headers, TDC, pixel hits, global timestamps, TPX3 controls)
plus the unprocessed-packet count reported by `printOutUnpackingDiagnostics`
equals the total packet count `numberOfDataPackets`; moreover the reported
line prints exactly that unprocessed value. -/
theorem c1_category_counts_reconcile (d : tpx3FileDiagnostics) :
    ((d.numberOfBuffers : Int) + d.numberOfTDC1s + d.numberOfPixelHits
        + d.numberOfGTS + d.numberOfTXP3Controls)
      + numberOfUnprocessedPackets d = (d.numberOfDataPackets : Int) ∧
    ("Number of Unknown processed packets: "
        ++ toString (numberOfUnprocessedPackets d))
      ∈ printOutUnpackingDiagnostics d := by
  constructor
  · unfold numberOfUnprocessedPackets
    ring
  · simp [printOutUnpackingDiagnostics]

/-- Claim C2, counterexample: a diagnostics value whose category counts exceed
the total yields a strictly negative unprocessed count, and
`printOutUnpackingDiagnostics` still completes normally and prints the negative
value (there is no assertion in the code). -/
theorem c2_negative_count_printed_counterexample :
    numberOfUnprocessedPackets
        { numberOfDataPackets := 0, numberOfBuffers := 1, numberOfTDC1s := 0,
          numberOfPixelHits := 0, numberOfGTS := 0, numberOfTXP3Controls := 0,
          totalHermesTime := 0, totalUnpackingTime := 0, totalSortingTime := 0,
          totalClusteringTime := 0, totalWritingTime := 0 } = -1 ∧
    (-1 : Int) < 0 ∧
    "Number of Unknown processed packets: -1"
      ∈ printOutUnpackingDiagnostics
        { numberOfDataPackets := 0, numberOfBuffers := 1, numberOfTDC1s := 0,
          numberOfPixelHits := 0, numberOfGTS := 0, numberOfTXP3Controls := 0,
          totalHermesTime := 0, totalUnpackingTime := 0, totalSortingTime := 0,
          totalClusteringTime := 0, totalWritingTime := 0 } := by
  refine ⟨by decide, by decide, ?_⟩
  decide

/-- Claim C2, amended: whenever the per-category counts exceed the total packet
count, the unprocessed count computed by `printOutUnpackingDiagnostics` is
strictly negative and the function nevertheless prints that negative value
as-is; no assertion failure is raised. -/
theorem c2_negative_count_is_printed (d : tpx3FileDiagnostics)
    (h : d.numberOfDataPackets <
      d.numberOfBuffers + d.numberOfTDC1s + d.numberOfPixelHits
        + d.numberOfGTS + d.numberOfTXP3Controls) :
    numberOfUnprocessedPackets d < 0 ∧
    ("Number of Unknown processed packets: "
        ++ toString (numberOfUnprocessedPackets d))
      ∈ printOutUnpackingDiagnostics d := by
  constructor
  · unfold numberOfUnprocessedPackets
    omega
  · simp [printOutUnpackingDiagnostics]

/-- Witness for `c2_negative_count_is_printed` at a concrete diagnostics value. -/
theorem c2_negative_count_is_printed_witness :
    numberOfUnprocessedPackets
        { numberOfDataPackets := 1, numberOfBuffers := 2, numberOfTDC1s := 1,
          numberOfPixelHits := 0, numberOfGTS := 0, numberOfTXP3Controls := 0,
          totalHermesTime := 0, totalUnpackingTime := 0, totalSortingTime := 0,
          totalClusteringTime := 0, totalWritingTime := 0 } < 0 ∧
    ("Number of Unknown processed packets: "
        ++ toString (numberOfUnprocessedPackets
        { numberOfDataPackets := 1, numberOfBuffers := 2, numberOfTDC1s := 1,
          numberOfPixelHits := 0, numberOfGTS := 0, numberOfTXP3Controls := 0,
          totalHermesTime := 0, totalUnpackingTime := 0, totalSortingTime := 0,
          totalClusteringTime := 0, totalWritingTime := 0 }))
      ∈ printOutUnpackingDiagnostics
        { numberOfDataPackets := 1, numberOfBuffers := 2, numberOfTDC1s := 1,
          numberOfPixelHits := 0, numberOfGTS := 0, numberOfTXP3Controls := 0,
          totalHermesTime := 0, totalUnpackingTime := 0, totalSortingTime := 0,
          totalClusteringTime := 0, totalWritingTime := 0 } :=
  c2_negative_count_is_printed _ (by decide)

/-- Model of `trim` (configReader): remove leading and trailing space characters
(only `' '`, as in the C++ `find_first_not_of(' ')` / `find_last_not_of(' ')`). -/
def trim (s : String) : String :=
  String.mk (((s.data.dropWhile (fun c => c = ' ')).reverse.dropWhile
    (fun c => c = ' ')).reverse)

/-- Suffix of a character list starting at (and including) its last `'.'`, when a
dot exists: the `fileExt = filepath.substr(pos)` computed by `hasExtension`. -/
def extSuffixL : List Char → Option (List Char)
  | [] => none
  | c :: cs =>
    match extSuffixL cs with
    | some e => some e
    | none => if c = '.' then some (c :: cs) else none

/-- Model of `grabRunHandle` (configReader): everything before the last `'.'`,
or the whole string when there is no dot. -/
def grabRunHandleL : List Char → List Char
  | [] => []
  | c :: cs =>
    if '.' ∈ cs then c :: grabRunHandleL cs
    else if c = '.' then []
    else c :: cs

/-- Model of `hasExtension` (commandLineParser.cpp lines 55-61): compare the
substring from the last dot (inclusive) with the expected extension. -/
def hasExtensionL (f e : List Char) : Bool :=
  match extSuffixL f with
  | some x => decide (x = e)
  | none => false

/-- String-level `grabRunHandle`. -/
def grabRunHandle (s : String) : String :=
  String.mk (grabRunHandleL s.data)

/-- String-level `hasExtension`. -/
def hasExtension (f e : String) : Bool :=
  hasExtensionL f.data e.data

theorem extSuffixL_mem : ∀ (l : List Char) (e : List Char),
    extSuffixL l = some e → '.' ∈ l := by
  intro l
  induction l with
  | nil => intro e h; simp [extSuffixL] at h
  | cons c cs ih =>
    intro e h
    unfold extSuffixL at h
    cases hcs : extSuffixL cs with
    | some x => exact List.mem_cons_of_mem _ (ih x hcs)
    | none =>
      rw [hcs] at h
      by_cases hc : c = '.'
      · subst hc; exact List.mem_cons_self _ _
      · simp [hc] at h

theorem extSuffixL_spec : ∀ l : List Char,
    (extSuffixL l = none → '.' ∉ l) ∧
    (∀ e, extSuffixL l = some e → grabRunHandleL l ++ e = l) := by
  intro l
  induction l with
  | nil =>
    refine ⟨fun _ => List.not_mem_nil _, fun e h => ?_⟩
    simp [extSuffixL] at h
  | cons c cs ih =>
    constructor
    · intro h
      unfold extSuffixL at h
      cases hcs : extSuffixL cs with
      | some x => rw [hcs] at h; simp at h
      | none =>
        rw [hcs] at h
        by_cases hc : c = '.'
        · simp [hc] at h
        · intro hmem
          rcases List.mem_cons.mp hmem with h1 | h2
          · exact hc h1.symm
          · exact ih.1 hcs h2
    · intro e h
      unfold extSuffixL at h
      cases hcs : extSuffixL cs with
      | some x =>
        rw [hcs] at h
        have hx : x = e := by simpa using h
        subst hx
        have hmem : '.' ∈ cs := extSuffixL_mem cs x hcs
        have := ih.2 x hcs
        simp [grabRunHandleL, hmem, this]
      | none =>
        rw [hcs] at h
        by_cases hc : c = '.'
        · subst hc
          simp at h
          subst h
          have hnm : '.' ∉ cs := ih.1 hcs
          simp [grabRunHandleL, hnm]
        · simp [hc] at h

theorem grabRunHandleL_of_not_mem {l : List Char} (h : '.' ∉ l) :
    grabRunHandleL l = l := by
  cases l with
  | nil => rfl
  | cons c cs =>
    have hc : ¬ c = '.' := fun hc => h (by rw [hc]; exact List.mem_cons_self _ _)
    have hcs : '.' ∉ cs := fun hm => h (List.mem_cons_of_mem _ hm)
    simp [grabRunHandleL, hcs, hc]

/-- Claim C10: if `hasExtension f e` holds then `grabRunHandle f` followed by
`e` reconstructs `f` exactly (the run handle is the filename with its extension
removed), and a filename containing no dot is returned unchanged by
`grabRunHandle`. -/
theorem c10_runHandle_extension_roundtrip (f e : String) :
    (hasExtension f e = true → grabRunHandle f ++ e = f) ∧
    ('.' ∉ f.data → grabRunHandle f = f) := by
  constructor
  · intro h
    unfold hasExtension hasExtensionL at h
    cases hx : extSuffixL f.data with
    | none => rw [hx] at h; simp at h
    | some x =>
      rw [hx] at h
      have hxe : x = e.data := of_decide_eq_true h
      subst hxe
      have hr := (extSuffixL_spec f.data).2 _ hx
      cases f with
      | mk fd =>
        cases e with
        | mk ed =>
          show String.mk (grabRunHandleL fd ++ ed) = String.mk fd
          exact congrArg String.mk hr
  · intro h
    cases f with
    | mk fd => exact congrArg String.mk (grabRunHandleL_of_not_mem h)

/-- Witness for `c10_runHandle_extension_roundtrip` on concrete filenames. -/
theorem c10_runHandle_extension_roundtrip_witness :
    grabRunHandle "run1.tpx3" ++ ".tpx3" = "run1.tpx3" ∧
    grabRunHandle "noext" = "noext" :=
  ⟨(c10_runHandle_extension_roundtrip "run1.tpx3" ".tpx3").1 (by decide),
   (c10_runHandle_extension_roundtrip "noext" ".tpx3").2 (by decide)⟩

/-- Modelled from the spec: a `SignalRecord` / `signalData` value (the struct
lives in the unavailable `structures.h`; field names follow their uses in
`diagnostics.cpp`): a signal type tag, pixel coordinates, an absolute time of
arrival and a time-over-threshold.  The floating `ToaFinal`/`TotFinal` are
modelled as rationals. -/
structure signalData where
  signalType : Nat
  xPixel : Nat
  yPixel : Nat
  ToaFinal : Rat
  TotFinal : Rat
deriving Repr, DecidableEq

/-- Comparison used by the Temporal Sorter: order records by time of arrival. -/
def toaLE (a b : signalData) : Bool :=
  decide (a.ToaFinal ≤ b.ToaFinal)

/-- Modelled from the spec: the Temporal Sorter (its implementation is not among
the available sources; the spec requires a stable, O(N log N), `toa`-keyed sort
producing a globally time-ordered sequence).  Modelled as a stable merge sort
keyed on `ToaFinal`. -/
def temporalSorter (l : List signalData) : List signalData :=
  l.mergeSort toaLE

theorem toaLE_trans (a b c : signalData) (h1 : toaLE a b) (h2 : toaLE b c) :
    toaLE a c := by
  simp only [toaLE, decide_eq_true_eq] at h1 h2 ⊢
  exact le_trans h1 h2

theorem toaLE_total (a b : signalData) : toaLE a b || toaLE b a := by
  simp only [toaLE, Bool.or_eq_true, decide_eq_true_eq]
  exact le_total _ _

/-- Stability of the Temporal Sorter: for every time-of-arrival value `c`, the
subsequence of records arriving exactly at `c` is returned in its original
order. -/
theorem temporalSorter_filter_eq (c : Rat) :
    ∀ l : List signalData,
      (temporalSorter l).filter (fun s => s.ToaFinal == c)
        = l.filter (fun s => s.ToaFinal == c) := by
  intro l
  induction l with
  | nil => simp [temporalSorter]
  | cons a l ih =>
    obtain ⟨l₁, l₂, h₁, h₂, h₃⟩ := List.mergeSort_cons toaLE_trans toaLE_total a l
    unfold temporalSorter at ih ⊢
    rw [h₁, List.filter_append]
    have hh := congrArg (List.filter (fun s => s.ToaFinal == c)) h₂
    rw [List.filter_append] at hh
    by_cases hpa : a.ToaFinal = c
    · have hl₁ : l₁.filter (fun s => s.ToaFinal == c) = [] := by
        rw [List.filter_eq_nil_iff]
        intro b hb hbc
        have hbtoa : b.ToaFinal = c := by simpa using hbc
        have hba : toaLE a b = true := by
          simp only [toaLE, decide_eq_true_eq, hpa, hbtoa]
          exact le_refl c
        have := h₃ b hb
        simp [hba] at this
      rw [hl₁] at hh ⊢
      rw [List.nil_append] at hh
      have hsplit : l₂.filter (fun s => s.ToaFinal == c)
          = l.filter (fun s => s.ToaFinal == c) := by
        rw [← hh, ih]
      simp [List.filter_cons, hpa, hsplit]
    · have hcond : (a.ToaFinal == c) = false := by
        simp [hpa]
      simp only [List.filter_cons, hcond]
      simp only [Bool.false_eq_true, if_false]
      rw [← hh, ih]

/-- Claim C3: the Temporal Sorter's output is non-decreasing in `toa`, is a
permutation of its input, is stable (records with equal `toa` keep their
original relative order, expressed as preservation of every equal-`toa`
subsequence), and is idempotent (already `toa`-sorted sequences are returned
unchanged). -/
theorem c3_temporalSorter_sorted_stable_idempotent (l : List signalData) :
    (temporalSorter l).Pairwise (fun a b => a.ToaFinal ≤ b.ToaFinal) ∧
    (temporalSorter l).Perm l ∧
    (∀ c : Rat, (temporalSorter l).filter (fun s => s.ToaFinal == c)
        = l.filter (fun s => s.ToaFinal == c)) ∧
    (l.Pairwise (fun a b => a.ToaFinal ≤ b.ToaFinal) → temporalSorter l = l) := by
  refine ⟨?_, ?_, ?_, ?_⟩
  · have := List.sorted_mergeSort toaLE_trans toaLE_total l
    exact this.imp (fun h => by simpa [toaLE] using h)
  · exact List.mergeSort_perm l toaLE
  · intro c
    exact temporalSorter_filter_eq c l
  · intro h
    exact List.mergeSort_of_sorted (h.imp (fun hab => by simpa [toaLE] using hab))

/-- Witness for `c3_temporalSorter_sorted_stable_idempotent` on a concrete
two-record already-sorted sequence with equal times of arrival. -/
theorem c3_temporalSorter_witness :
    (temporalSorter [⟨2, 1, 1, 1, 0⟩, ⟨2, 5, 7, 1, 0⟩]).Pairwise
        (fun a b => a.ToaFinal ≤ b.ToaFinal) ∧
    (temporalSorter [⟨2, 1, 1, 1, 0⟩, ⟨2, 5, 7, 1, 0⟩]).filter
        (fun s => s.ToaFinal == 1)
      = List.filter (fun s => s.ToaFinal == 1) [⟨2, 1, 1, 1, 0⟩, ⟨2, 5, 7, 1, 0⟩] ∧
    temporalSorter [⟨2, 1, 1, 1, 0⟩, ⟨2, 5, 7, 1, 0⟩]
      = [⟨2, 1, 1, 1, 0⟩, ⟨2, 5, 7, 1, 0⟩] :=
  ⟨(c3_temporalSorter_sorted_stable_idempotent _).1,
   (c3_temporalSorter_sorted_stable_idempotent _).2.2.1 1,
   (c3_temporalSorter_sorted_stable_idempotent _).2.2.2 (by decide)⟩

/-- Configuration parameters (struct `configParameters` in the unavailable
`structures.h`); fields and machine widths follow their documented uses in
`configReader.cpp` and `commandLineParser.cpp`: `epsSpatial` and `minPts` are
`uint8_t` (modelled as `Nat`, assigned through a mod-256 cast), `queryRegion`
is `uint16_t`, `verboseLevel` and `maxPacketsToRead` are `int`, and
`epsTemporal` is a `double` modelled as `Rat`. -/
structure configParameters where
  rawTPX3Folder : String
  rawTPX3File : String
  runHandle : String
  writeRawSignals : Bool
  outputFolder : String
  maxPacketsToRead : Int
  sortSignals : Bool
  verboseLevel : Int
  clusterPixels : Bool
  queryRegion : Nat
  writeOutPhotons : Bool
  epsSpatial : Nat
  epsTemporal : Rat
  minPts : Nat
  batchMode : Bool
  fillHistograms : Bool
deriving Repr, DecidableEq

/-- C++ `static_cast<uint8_t>` applied to an `int` value. -/
def toUInt8Nat (n : Int) : Nat := (n.emod 256).toNat

/-- C++ `static_cast<uint16_t>` applied to an `int` value. -/
def toUInt16Nat (n : Int) : Nat := (n.emod 65536).toNat

/-- C++ `static_cast<uint32_t>` applied to an `int` value, kept as `Int`. -/
def toUInt32Int (n : Int) : Int := n.emod 4294967296

/-- Model of `createDefaultConfig` (commandLineParser.cpp lines 18-37); string
fields not assigned there are default-constructed empty strings. -/
def createDefaultConfig : configParameters :=
  { rawTPX3Folder := "", rawTPX3File := "", runHandle := "",
    batchMode := false, writeRawSignals := true, sortSignals := true,
    outputFolder := ".", verboseLevel := 1, fillHistograms := false,
    clusterPixels := false, writeOutPhotons := false, maxPacketsToRead := 0,
    epsSpatial := 2, epsTemporal := 500, minPts := 3, queryRegion := 0 }

/-- Model of `stringToBool` (configReader): the C++ function throws on anything
but the exact strings "true"/"false"; the thrown case is `none`. -/
def stringToBool (s : String) : Option Bool :=
  if s = "true" then some true
  else if s = "false" then some false
  else none

/-- Whitespace in the sense of C++ `isspace` (default locale). -/
def isCppSpace (c : Char) : Bool :=
  c == ' ' || c == '\t' || c == '\n' || c == '\r'
    || c == Char.ofNat 11 || c == Char.ofNat 12

/-- Optional leading sign of a C++ integer literal. -/
def signSplit : List Char → Int × List Char
  | '+' :: r => (1, r)
  | '-' :: r => (-1, r)
  | l => (1, l)

/-- Numeric value of a digit string. -/
def digitsToNat (ds : List Char) : Nat :=
  ds.foldl (fun a c => a * 10 + (c.toNat - 48)) 0

/-- Whether a value fits a 32-bit C++ `int`. -/
def intRangeOK (v : Int) : Bool :=
  decide (-2147483648 ≤ v ∧ v ≤ 2147483647)

/-- Model of `std::stoi`: skip leading whitespace, read an optional sign and a
maximal non-empty digit prefix (trailing characters are ignored); `none` models
the `invalid_argument`/`out_of_range` exceptions. -/
def stoiOpt (s : String) : Option Int :=
  let l := s.data.dropWhile isCppSpace
  let sgn := signSplit l
  let ds := sgn.2.takeWhile Char.isDigit
  if ds.isEmpty then none
  else
    let v : Int := sgn.1 * (digitsToNat ds : Int)
    if intRangeOK v then some v else none

/-- Model of `parseIntOrDefault` (commandLineParser.cpp lines 101-107):
`std::stoi` with a default substituted when it throws.  It emits no output. -/
def parseIntOrDefault (s : String) (d : Int) : Int :=
  (stoiOpt s).getD d

/-- Model of the configReader template `stringToNumber<int>`: extraction via
`istringstream` followed by the `fail() || !eof()` check, so trailing
characters also make it throw (`none`). -/
def stringToNumberInt (s : String) : Option Int :=
  let l := s.data.dropWhile isCppSpace
  let sgn := signSplit l
  let ds := sgn.2.takeWhile Char.isDigit
  if ds.isEmpty then none
  else if (sgn.2.drop ds.length).isEmpty then
    let v : Int := sgn.1 * (digitsToNat ds : Int)
    if intRangeOK v then some v else none
  else none

/-- The line printed by `logConfigError` (configReader lines 42-44). -/
def logConfigError (key value err : String) : String :=
  "CONFIG ERROR for key '" ++ key ++ "' with value '" ++ value ++ "': " ++ err

/-- Exception text of `stringToBool`. -/
def invalidBoolMsg (v : String) : String := "Invalid boolean value: " ++ v

/-- Exception text of `stringToNumber`. -/
def invalidNumMsg (v : String) : String := "Invalid numeric value: " ++ v

/-- The line printed for an unrecognized configuration key. -/
def unknownKeyMsg (k : String) : String := "Unknown configuration key: " ++ k

/-- Split a line at its first `'='`: the two `getline` calls of
`readConfigFile` (key before the delimiter, remainder of the line after it;
the whole line and an empty value when there is no `'='`). -/
def splitEqL : List Char → List Char × List Char
  | [] => ([], [])
  | c :: cs =>
    if c = '=' then ([], cs)
    else ((c :: (splitEqL cs).1), (splitEqL cs).2)

/-- The key-dispatch chain of `readConfigFile` (configReader lines 97-126) for
one already-split and trimmed key/value pair: returns the updated parameters
and the error lines printed while handling the pair.  `pd` abstracts
`stringToNumber<double>`. -/
def processKeyValue (pd : String → Option Rat) (p : configParameters)
    (key value : String) : configParameters × List String :=
  if key = "rawTPX3Folder" then ({ p with rawTPX3Folder := value }, [])
  else if key = "rawTPX3File" then
    if value = "" ∨ value = "ALL" ∨ value = "all" then
      ({ p with rawTPX3File := "ALL", runHandle := "" }, [])
    else
      ({ p with rawTPX3File := value, runHandle := grabRunHandle value }, [])
  else if key = "writeRawSignals" then
    match stringToBool value with
    | some b => ({ p with writeRawSignals := b }, [])
    | none => (p, [logConfigError key value (invalidBoolMsg value)])
  else if key = "outputFolder" then ({ p with outputFolder := value }, [])
  else if key = "sortSignals" then
    match stringToBool value with
    | some b => ({ p with sortSignals := b }, [])
    | none => (p, [logConfigError key value (invalidBoolMsg value)])
  else if key = "verboseLevel" then
    match stringToNumberInt value with
    | some n => ({ p with verboseLevel := n }, [])
    | none => (p, [logConfigError key value (invalidNumMsg value)])
  else if key = "clusterPixels" then
    match stringToBool value with
    | some b => ({ p with clusterPixels := b }, [])
    | none => (p, [logConfigError key value (invalidBoolMsg value)])
  else if key = "queryRegion" then
    match stringToNumberInt value with
    | some n => ({ p with queryRegion := toUInt16Nat n }, [])
    | none => (p, [logConfigError key value (invalidNumMsg value)])
  else if key = "writeOutPhotons" then
    match stringToBool value with
    | some b => ({ p with writeOutPhotons := b }, [])
    | none => (p, [logConfigError key value (invalidBoolMsg value)])
  else if key = "epsSpatial" then
    match stringToNumberInt value with
    | some n => ({ p with epsSpatial := toUInt8Nat n }, [])
    | none => (p, [logConfigError key value (invalidNumMsg value)])
  else if key = "epsTemporal" then
    match pd value with
    | some q => ({ p with epsTemporal := q }, [])
    | none => (p, [logConfigError key value (invalidNumMsg value)])
  else if key = "minPts" then
    match stringToNumberInt value with
    | some n => ({ p with minPts := toUInt8Nat n }, [])
    | none => (p, [logConfigError key value (invalidNumMsg value)])
  else if key = "maxPacketsToRead" then
    match stringToNumberInt value with
    | some n => ({ p with maxPacketsToRead := n }, [])
    | none => (p, [logConfigError key value (invalidNumMsg value)])
  else (p, [unknownKeyMsg key])

/-- One iteration of the `readConfigFile` line loop: comment/empty lines are
skipped, others are split at `'='`, trimmed and dispatched. -/
def processConfigLine (pd : String → Option Rat) (p : configParameters)
    (line : String) : configParameters × List String :=
  if line = "" ∨ line.data.head? = some '#' ∨ '#' ∈ line.data then (p, [])
  else
    let kv := splitEqL line.data
    processKeyValue pd p (trim (String.mk kv.1)) (trim (String.mk kv.2))

/-- Fold step accumulating parameters and printed error lines. -/
def configLineStep (pd : String → Option Rat)
    (acc : configParameters × List String) (line : String) :
    configParameters × List String :=
  let st := processConfigLine pd acc.1 line
  (st.1, acc.2 ++ st.2)

/-- Model of `readConfigFile` (configReader lines 79-131) over the lines of an
already-opened file: processes every line and always returns `true`. -/
def readConfigFile (pd : String → Option Rat) (lines : List String)
    (params : configParameters) : Bool × configParameters × List String :=
  let r := lines.foldl (configLineStep pd) (params, ([] : List String))
  (true, r.1, r.2)

theorem configFoldl_fst (pd : String → Option Rat) :
    ∀ (lines : List String) (p : configParameters) (m : List String),
      (lines.foldl (configLineStep pd) (p, m)).1
        = (lines.foldl (configLineStep pd) (p, [])).1 := by
  intro lines
  induction lines with
  | nil => intro p m; rfl
  | cons line rest ih =>
    intro p m
    rw [List.foldl_cons, List.foldl_cons]
    have hstep : ∀ m0 : List String, configLineStep pd (p, m0) line
        = ((processConfigLine pd p line).1,
           m0 ++ (processConfigLine pd p line).2) := fun m0 => rfl
    rw [hstep m, hstep []]
    exact (ih _ _).trans (ih _ _).symm

theorem processKeyValue_props (pd : String → Option Rat) (p : configParameters)
    (k v : String) :
    (processKeyValue pd p k v).1.batchMode = p.batchMode ∧
    ((processKeyValue pd p k v).1 = p ∨ (processKeyValue pd p k v).2 = []) := by
  delta processKeyValue
  by_cases h1 : k = "rawTPX3Folder"
  · rw [if_pos h1]; exact ⟨rfl, Or.inr rfl⟩
  rw [if_neg h1]
  by_cases h2 : k = "rawTPX3File"
  · rw [if_pos h2]
    by_cases hv : v = "" ∨ v = "ALL" ∨ v = "all"
    · rw [if_pos hv]; exact ⟨rfl, Or.inr rfl⟩
    · rw [if_neg hv]; exact ⟨rfl, Or.inr rfl⟩
  rw [if_neg h2]
  by_cases h3 : k = "writeRawSignals"
  · rw [if_pos h3]
    cases hb : stringToBool v with
    | some b => exact ⟨rfl, Or.inr rfl⟩
    | none => exact ⟨rfl, Or.inl rfl⟩
  rw [if_neg h3]
  by_cases h4 : k = "outputFolder"
  · rw [if_pos h4]; exact ⟨rfl, Or.inr rfl⟩
  rw [if_neg h4]
  by_cases h5 : k = "sortSignals"
  · rw [if_pos h5]
    cases hb : stringToBool v with
    | some b => exact ⟨rfl, Or.inr rfl⟩
    | none => exact ⟨rfl, Or.inl rfl⟩
  rw [if_neg h5]
  by_cases h6 : k = "verboseLevel"
  · rw [if_pos h6]
    cases hn : stringToNumberInt v with
    | some n => exact ⟨rfl, Or.inr rfl⟩
    | none => exact ⟨rfl, Or.inl rfl⟩
  rw [if_neg h6]
  by_cases h7 : k = "clusterPixels"
  · rw [if_pos h7]
    cases hb : stringToBool v with
    | some b => exact ⟨rfl, Or.inr rfl⟩
    | none => exact ⟨rfl, Or.inl rfl⟩
  rw [if_neg h7]
  by_cases h8 : k = "queryRegion"
  · rw [if_pos h8]
    cases hn : stringToNumberInt v with
    | some n => exact ⟨rfl, Or.inr rfl⟩
    | none => exact ⟨rfl, Or.inl rfl⟩
  rw [if_neg h8]
  by_cases h9 : k = "writeOutPhotons"
  · rw [if_pos h9]
    cases hb : stringToBool v with
    | some b => exact ⟨rfl, Or.inr rfl⟩
    | none => exact ⟨rfl, Or.inl rfl⟩
  rw [if_neg h9]
  by_cases h10 : k = "epsSpatial"
  · rw [if_pos h10]
    cases hn : stringToNumberInt v with
    | some n => exact ⟨rfl, Or.inr rfl⟩
    | none => exact ⟨rfl, Or.inl rfl⟩
  rw [if_neg h10]
  by_cases h11 : k = "epsTemporal"
  · rw [if_pos h11]
    cases hq : pd v with
    | some q => exact ⟨rfl, Or.inr rfl⟩
    | none => exact ⟨rfl, Or.inl rfl⟩
  rw [if_neg h11]
  by_cases h12 : k = "minPts"
  · rw [if_pos h12]
    cases hn : stringToNumberInt v with
    | some n => exact ⟨rfl, Or.inr rfl⟩
    | none => exact ⟨rfl, Or.inl rfl⟩
  rw [if_neg h12]
  by_cases h13 : k = "maxPacketsToRead"
  · rw [if_pos h13]
    cases hn : stringToNumberInt v with
    | some n => exact ⟨rfl, Or.inr rfl⟩
    | none => exact ⟨rfl, Or.inl rfl⟩
  rw [if_neg h13]
  exact ⟨rfl, Or.inl rfl⟩

theorem processKeyValue_error_unchanged (pd : String → Option Rat)
    (p : configParameters) (k v : String) :
    (processKeyValue pd p k v).1 = p ∨ (processKeyValue pd p k v).2 = [] :=
  (processKeyValue_props pd p k v).2

theorem processConfigLine_batchMode (pd : String → Option Rat)
    (p : configParameters) (line : String) :
    (processConfigLine pd p line).1.batchMode = p.batchMode := by
  unfold processConfigLine
  split
  · rfl
  · exact (processKeyValue_props pd p _ _).1

/-- Claim C4, counterexample: the recognized key `epsSpatial` given the
out-of-range value `300` (its field is `uint8_t`, range 0..255) is neither
left at its previous value (the default 2) nor clamped: `readConfigFile`
narrows it to `300 mod 256 = 44` and assigns that, reporting nothing. -/
theorem c4_out_of_range_wraps_counterexample :
    ((readConfigFile (fun _ => none) ["epsSpatial=300"]
        createDefaultConfig).2.1).epsSpatial = 44 ∧
    (readConfigFile (fun _ => none) ["epsSpatial=300"]
        createDefaultConfig).2.2 = [] ∧
    createDefaultConfig.epsSpatial = 2 := by
  refine ⟨?_, ?_, rfl⟩ <;> decide

/-- Claim C4, amended: for every configuration file that can be opened,
`readConfigFile` always returns `true`; every line that generates an error
report leaves the configuration unchanged (so unparsable values keep the
previous/default parameter value, are reported, and processing continues with
the remaining lines); however, a value that is out of the target field's range
but still parses as an `int` is narrowed by the C++ cast and assigned without
any report, rather than being left at a previous value or clamped. -/
theorem c4_unparsable_value_soft_error :
    (∀ (pd : String → Option Rat) lines params,
      (readConfigFile pd lines params).1 = true) ∧
    (∀ (pd : String → Option Rat) p k v,
      (processKeyValue pd p k v).1 = p ∨ (processKeyValue pd p k v).2 = []) ∧
    (∀ (pd : String → Option Rat) p v, stringToNumberInt v = none →
      processKeyValue pd p "epsSpatial" v
        = (p, [logConfigError "epsSpatial" v (invalidNumMsg v)])) ∧
    (∀ (pd : String → Option Rat) line rest params,
      (readConfigFile pd (line :: rest) params).2.1
        = (readConfigFile pd rest (processConfigLine pd params line).1).2.1) := by
  refine ⟨fun pd lines params => rfl, ?_, ?_, ?_⟩
  · intro pd p k v
    exact processKeyValue_error_unchanged pd p k v
  · intro pd p v h
    have hred : processKeyValue pd p "epsSpatial" v
        = match stringToNumberInt v with
          | some n => ({ p with epsSpatial := toUInt8Nat n }, [])
          | none => (p, [logConfigError "epsSpatial" v (invalidNumMsg v)]) := rfl
    rw [hred, h]
  · intro pd line rest params
    show (List.foldl (configLineStep pd) (configLineStep pd (params, []) line) rest).1
      = (List.foldl (configLineStep pd) ((processConfigLine pd params line).1, []) rest).1
    have hstep : configLineStep pd (params, []) line
        = ((processConfigLine pd params line).1,
           [] ++ (processConfigLine pd params line).2) := rfl
    rw [hstep]
    exact configFoldl_fst pd rest _ _

/-- Witness for `c4_unparsable_value_soft_error` at concrete inputs. -/
theorem c4_unparsable_value_soft_error_witness :
    (readConfigFile (fun _ => none) ["minPts = abc"] createDefaultConfig).1
        = true ∧
    processKeyValue (fun _ => none) createDefaultConfig "epsSpatial" "junk"
        = (createDefaultConfig,
           [logConfigError "epsSpatial" "junk" (invalidNumMsg "junk")]) ∧
    (readConfigFile (fun _ => none) ["epsSpatial = junk", "minPts = 5"]
        createDefaultConfig).2.1
      = (readConfigFile (fun _ => none) ["minPts = 5"]
        (processConfigLine (fun _ => none) createDefaultConfig
          "epsSpatial = junk").1).2.1 :=
  ⟨c4_unparsable_value_soft_error.1 _ _ _,
   c4_unparsable_value_soft_error.2.2.1 _ _ "junk" (by decide),
   c4_unparsable_value_soft_error.2.2.2 _ _ _ _⟩

/-- Directory part of a path: `getDirectoryPath` / `getFilename`
(commandLineParser.cpp lines 78-93) split at the last `'/'` or `'\'`. -/
def splitPathAux : List Char → Option (List Char × List Char)
  | [] => none
  | c :: cs =>
    match splitPathAux cs with
    | some r => some (c :: r.1, r.2)
    | none => if c = '/' ∨ c = '\\' then some ([], cs) else none

/-- Model of `getDirectoryPath`: prefix before the last path separator, or the
empty string when there is none. -/
def getDirectoryPath (s : String) : String :=
  match splitPathAux s.data with
  | some r => String.mk r.1
  | none => ""

/-- Model of `getFilename`: suffix after the last path separator, or the whole
path when there is none. -/
def getFilename (s : String) : String :=
  match splitPathAux s.data with
  | some r => String.mk r.2
  | none => s

/-- The local variables of the `parseCommandLineFlags` loop
(commandLineParser.cpp lines 121-137). -/
structure CmdLocals where
  inputFile : String
  inputDir : String
  outputDir : String
  configFile : String
  sortSignals : Bool
  sortSpecified : Bool
  writeRawSignals : Bool
  writeRawSignalsSpecified : Bool
  clusterPixels : Bool
  clusterPixelsSpecified : Bool
  writeOutPhotons : Bool
  writeOutPhotonsSpecified : Bool
  fillHistograms : Bool
  fillHistogramsSpecified : Bool
  verboseLevel : Int
  maxPackets : Int
  epsSpatial : Nat
  epsTemporal : Rat
  minPts : Nat
  queryRegion : Nat
deriving Repr, DecidableEq

/-- Initial values of the loop locals (commandLineParser.cpp lines 122-137). -/
def initCmdLocals : CmdLocals :=
  { inputFile := "", inputDir := "", outputDir := "", configFile := "",
    sortSignals := false, sortSpecified := false,
    writeRawSignals := true, writeRawSignalsSpecified := false,
    clusterPixels := false, clusterPixelsSpecified := false,
    writeOutPhotons := false, writeOutPhotonsSpecified := false,
    fillHistograms := false, fillHistogramsSpecified := false,
    verboseLevel := 1, maxPackets := 0, epsSpatial := 0, epsTemporal := 0,
    minPts := 0, queryRegion := 0 }

/-- Whether `argv[i+1][0] == '-'` holds (for an empty argument the C string's
first byte is the terminator, which is not a dash). -/
def firstIsDash (s : String) : Bool :=
  s.data.head? == some '-'

/-- Outcome of the argument loop: an early `return false` for help, an early
`return false` for an unknown (or value-missing) option, or fall-through with
the final locals. -/
inductive LoopOut where
  | helpRequested (helpLevel : Int) (st : CmdLocals)
  | unknownOption (arg : String) (st : CmdLocals)
  | done (st : CmdLocals)
deriving Repr, DecidableEq

/-- The `for (int i = 1; i < argc; i++)` flag loop of `parseCommandLineFlags`
(commandLineParser.cpp lines 139-216).  Two-argument options whose value is
missing fall through to the unknown-option branch, exactly as the C++
condition `&& i + 1 < argc` does.  `sd` abstracts `std::stod`; the `catch`
around it substitutes `0.0`. -/
def cmdLoop (sd : String → Option Rat) : List String → CmdLocals → LoopOut
  | [], st => .done st
  | arg :: rest, st =>
    if arg = "-h" ∨ arg = "--help" then
      match rest with
      | next :: _ =>
        if firstIsDash next = false then
          let h := parseIntOrDefault next 1
          .helpRequested (if h < 1 ∨ h > 2 then 1 else h) st
        else .helpRequested 1 st
      | [] => .helpRequested 1 st
    else if arg = "-i" ∨ arg = "--inputFile" then
      match rest with
      | next :: rest2 => cmdLoop sd rest2 { st with inputFile := next }
      | [] => .unknownOption arg st
    else if arg = "-I" ∨ arg = "--inputDir" then
      match rest with
      | next :: rest2 => cmdLoop sd rest2 { st with inputDir := next }
      | [] => .unknownOption arg st
    else if arg = "-o" ∨ arg = "--outputDir" then
      match rest with
      | next :: rest2 => cmdLoop sd rest2 { st with outputDir := next }
      | [] => .unknownOption arg st
    else if arg = "-c" ∨ arg = "--configFile" then
      match rest with
      | next :: rest2 => cmdLoop sd rest2 { st with configFile := next }
      | [] => .unknownOption arg st
    else if arg = "-s" ∨ arg = "--sort" then
      cmdLoop sd rest { st with sortSignals := true, sortSpecified := true }
    else if arg = "-v" ∨ arg = "--verbose" then
      match rest with
      | next :: rest2 =>
        cmdLoop sd rest2 { st with verboseLevel := parseIntOrDefault next 1 }
      | [] => .unknownOption arg st
    else if arg = "-w" ∨ arg = "--writeRawSignals" then
      cmdLoop sd rest { st with writeRawSignals := true, writeRawSignalsSpecified := true }
    else if arg = "-W" ∨ arg = "--no-writeRawSignals" then
      cmdLoop sd rest { st with writeRawSignals := false, writeRawSignalsSpecified := true }
    else if arg = "-C" ∨ arg = "--clusterPixels" then
      cmdLoop sd rest { st with clusterPixels := true, clusterPixelsSpecified := true }
    else if arg = "-p" ∨ arg = "--writeOutPhotons" then
      cmdLoop sd rest { st with writeOutPhotons := true, writeOutPhotonsSpecified := true }
    else if arg = "-H" ∨ arg = "--fillHistograms" then
      cmdLoop sd rest { st with fillHistograms := true, fillHistogramsSpecified := true }
    else if arg = "-m" ∨ arg = "--maxPackets" then
      match rest with
      | next :: rest2 =>
        cmdLoop sd rest2 { st with maxPackets := toUInt32Int (parseIntOrDefault next 0) }
      | [] => .unknownOption arg st
    else if arg = "-S" ∨ arg = "--epsSpatial" then
      match rest with
      | next :: rest2 =>
        cmdLoop sd rest2 { st with epsSpatial := toUInt8Nat (parseIntOrDefault next 0) }
      | [] => .unknownOption arg st
    else if arg = "-T" ∨ arg = "--epsTemporal" then
      match rest with
      | next :: rest2 =>
        cmdLoop sd rest2
          { st with epsTemporal := match sd next with | some q => q | none => 0 }
      | [] => .unknownOption arg st
    else if arg = "-P" ∨ arg = "--minPts" then
      match rest with
      | next :: rest2 =>
        cmdLoop sd rest2 { st with minPts := toUInt8Nat (parseIntOrDefault next 0) }
      | [] => .unknownOption arg st
    else if arg = "-q" ∨ arg = "--queryRegion" then
      match rest with
      | next :: rest2 =>
        cmdLoop sd rest2 { st with queryRegion := toUInt16Nat (parseIntOrDefault next 0) }
      | [] => .unknownOption arg st
    else .unknownOption arg st

/-- Rendering of a boolean option in the parser's status lines. -/
def boolWord (b : Bool) : String := if b then "enabled" else "disabled"

/-- Result of `parseCommandLineFlags`: the returned boolean, the populated
`configParams` out-parameter, the `helpLevel` out-parameter, the console lines
emitted, and (for observation) the loop locals plus the configuration state
right after the optional config-file read. -/
structure ParseResult where
  success : Bool
  config : configParameters
  helpLevel : Int
  messages : List String
  finalLocals : CmdLocals
  configAfterFile : configParameters
deriving Repr, DecidableEq

/-- Output-directory selection (commandLineParser.cpp lines 261-266). -/
def stepOutputDir (st : CmdLocals) (p : configParameters) : configParameters :=
  if st.outputDir ≠ "" then { p with outputFolder := st.outputDir }
  else if st.configFile = "" then
    { p with outputFolder := if p.rawTPX3Folder = "" then "." else p.rawTPX3Folder }
  else p

/-- The warning printed for an out-of-range verbose level (lines 272-273);
`cur` is the configuration's current verbose level, printed as the retained
default. -/
def invalidVerboseMsg (v cur : Int) : String :=
  "Warning: Invalid verbose level " ++ toString v ++ ". Using default: " ++ toString cur

/-- Verbose-level application (lines 269-274): a parsed level in 0..3 is
copied into the configuration, anything else leaves it untouched. -/
def applyVerbose (st : CmdLocals) (p : configParameters) : configParameters :=
  if 0 ≤ st.verboseLevel ∧ st.verboseLevel ≤ 3 then
    { p with verboseLevel := st.verboseLevel }
  else p

/-- Console line of the verbose-level step (empty when the level is applied). -/
def verboseMsgs (st : CmdLocals) (p : configParameters) : List String :=
  if 0 ≤ st.verboseLevel ∧ st.verboseLevel ≤ 3 then []
  else [invalidVerboseMsg st.verboseLevel p.verboseLevel]

/-- Boolean-option overrides (lines 277-301): each `*Specified` flag copies
its loop local into the configuration.  The field updates and the printed
lines are modelled side by side (the C++ interleaves assignment and print; the
resulting configuration and output sequence are identical). -/
def applyBools (st : CmdLocals) (p : configParameters) : configParameters :=
  { p with
    sortSignals := if st.sortSpecified then st.sortSignals else p.sortSignals,
    writeRawSignals := if st.writeRawSignalsSpecified then st.writeRawSignals else p.writeRawSignals,
    clusterPixels := if st.clusterPixelsSpecified then st.clusterPixels else p.clusterPixels,
    writeOutPhotons := if st.writeOutPhotonsSpecified then st.writeOutPhotons else p.writeOutPhotons,
    fillHistograms := if st.fillHistogramsSpecified then st.fillHistograms else p.fillHistograms }

/-- Console lines of the boolean-option overrides, in program order. -/
def boolsMsgs (st : CmdLocals) : List String :=
  (if st.sortSpecified then ["Signal sorting: " ++ boolWord st.sortSignals] else [])
    ++ (if st.writeRawSignalsSpecified then ["Write raw signals: " ++ boolWord st.writeRawSignals] else [])
    ++ (if st.clusterPixelsSpecified then ["Cluster pixels: " ++ boolWord st.clusterPixels] else [])
    ++ (if st.writeOutPhotonsSpecified then ["Write out photons: " ++ boolWord st.writeOutPhotons] else [])
    ++ (if st.fillHistogramsSpecified then ["Fill histograms: " ++ boolWord st.fillHistograms] else [])

/-- Numeric-parameter overrides (lines 304-327): each strictly positive loop
local overrides its configuration field; zero (the default for unparsable or
absent flags) leaves the field alone. -/
def applyNumerics (st : CmdLocals) (p : configParameters) : configParameters :=
  { p with
    maxPacketsToRead := if 0 < st.maxPackets then st.maxPackets else p.maxPacketsToRead,
    epsSpatial := if 0 < st.epsSpatial then st.epsSpatial else p.epsSpatial,
    epsTemporal := if 0 < st.epsTemporal then st.epsTemporal else p.epsTemporal,
    minPts := if 0 < st.minPts then st.minPts else p.minPts,
    queryRegion := if 0 < st.queryRegion then st.queryRegion else p.queryRegion }

/-- Console lines of the numeric overrides, in program order. -/
def numericsMsgs (st : CmdLocals) : List String :=
  (if 0 < st.maxPackets then ["Max packets to read: " ++ toString st.maxPackets] else [])
    ++ (if 0 < st.epsSpatial then ["Epsilon spatial: " ++ toString st.epsSpatial] else [])
    ++ (if 0 < st.epsTemporal then ["Epsilon temporal: " ++ ratStr st.epsTemporal] else [])
    ++ (if 0 < st.minPts then ["Minimum points: " ++ toString st.minPts] else [])
    ++ (if 0 < st.queryRegion then ["Query region: " ++ toString st.queryRegion] else [])

/-- The tail of `parseCommandLineFlags` after the input-path handling
(lines 260-329): output directory, verbose level, boolean and numeric
overrides, then `return true`. -/
def parseFinish (st : CmdLocals) (params0 : configParameters) (msgs : List String)
    (configAfter : configParameters) : ParseResult :=
  let p1 := stepOutputDir st params0
  { success := true,
    config := applyNumerics st (applyBools st (applyVerbose st p1)),
    helpLevel := 0,
    messages := msgs ++ verboseMsgs st p1 ++ boolsMsgs st ++ numericsMsgs st,
    finalLocals := st, configAfterFile := configAfter }

/-- An early `return false` after the loop, with the messages printed so far. -/
def failResult (st : CmdLocals) (p : configParameters) (msgs : List String) :
    ParseResult :=
  { success := false, config := p, helpLevel := 0, messages := msgs,
    finalLocals := st, configAfterFile := p }

/-- Input-file / input-directory handling (lines 239-258): a named input file
must exist and carry the `.tpx3` extension, otherwise the parse fails; a named
input directory switches to batch mode. -/
def parseInputPaths (fs : String → Bool) (st : CmdLocals)
    (params : configParameters) (msgs : List String) : ParseResult :=
  if st.inputFile ≠ "" then
    if fs st.inputFile = false then
      failResult st params
        (msgs ++ ["Error: Input file does not exist: " ++ st.inputFile])
    else if hasExtension st.inputFile ".tpx3" = false then
      failResult st params
        (msgs ++ ["Error: Input file must have .tpx3 extension: " ++ st.inputFile])
    else
      parseFinish st
        { params with
          rawTPX3File := getFilename st.inputFile,
          rawTPX3Folder := getDirectoryPath st.inputFile,
          runHandle := grabRunHandle (getFilename st.inputFile),
          batchMode := false }
        msgs params
  else if st.inputDir ≠ "" then
    parseFinish st
      { params with
        rawTPX3Folder := st.inputDir, rawTPX3File := "ALL", batchMode := true }
      msgs params
  else parseFinish st params msgs params

/-- Required-parameter validation (lines 228-236). -/
def parseValidate (fs : String → Bool) (st : CmdLocals)
    (params : configParameters) (msgs : List String) : ParseResult :=
  if st.inputFile = "" ∧ st.inputDir = "" ∧ st.configFile = "" then
    failResult st params
      (msgs ++ ["Error: Must specify either -i <input_file>, -I <input_dir>, or -c <config_file>"])
  else if st.inputFile ≠ "" ∧ st.inputDir ≠ "" then
    failResult st params (msgs ++ ["Error: Cannot specify both -i and -I options"])
  else parseInputPaths fs st params msgs

/-- Config-file loading (lines 219-225): `files` maps a config-file name to
its lines when the file can be opened; an unopenable file makes
`readConfigFile` print its own error, return `false`, and the parser fail. -/
def parsePostLoop (fs : String → Bool) (files : String → Option (List String))
    (pd : String → Option Rat) (st : CmdLocals) : ParseResult :=
  if st.configFile = "" then parseValidate fs st createDefaultConfig []
  else
    match files st.configFile with
    | none =>
      { success := false, config := createDefaultConfig, helpLevel := 0,
        messages := ["Failed to open configuration file: " ++ st.configFile,
                     "Error: Failed to read configuration file: " ++ st.configFile],
        finalLocals := st, configAfterFile := createDefaultConfig }
    | some contents =>
      let r := readConfigFile pd contents createDefaultConfig
      parseValidate fs st r.2.1
        (r.2.2 ++ ["Loaded configuration from: " ++ st.configFile])

/-- Model of `parseCommandLineFlags` (commandLineParser.cpp lines 117-330).
`fs` abstracts `fileExists`, `files` the filesystem contents behind
`readConfigFile`, `pd`/`sd` the two C++ double parsers; `args` is
`argv[1..argc-1]`. -/
def parseCommandLineFlags (fs : String → Bool)
    (files : String → Option (List String)) (pd sd : String → Option Rat)
    (args : List String) : ParseResult :=
  match cmdLoop sd args initCmdLocals with
  | .helpRequested h st =>
    { success := false, config := createDefaultConfig, helpLevel := h,
      messages := [], finalLocals := st, configAfterFile := createDefaultConfig }
  | .unknownOption arg st =>
    { success := false, config := createDefaultConfig, helpLevel := 0,
      messages := ["Error: Unknown option: " ++ arg],
      finalLocals := st, configAfterFile := createDefaultConfig }
  | .done st => parsePostLoop fs files pd st

theorem stepOutputDir_verboseLevel (st : CmdLocals) (p : configParameters) :
    (stepOutputDir st p).verboseLevel = p.verboseLevel := by
  unfold stepOutputDir
  repeat' split
  all_goals rfl

theorem stepOutputDir_batchMode (st : CmdLocals) (p : configParameters) :
    (stepOutputDir st p).batchMode = p.batchMode := by
  unfold stepOutputDir
  repeat' split
  all_goals rfl

theorem stepOutputDir_maxPacketsToRead (st : CmdLocals) (p : configParameters) :
    (stepOutputDir st p).maxPacketsToRead = p.maxPacketsToRead := by
  unfold stepOutputDir
  repeat' split
  all_goals rfl

theorem stepOutputDir_epsSpatial (st : CmdLocals) (p : configParameters) :
    (stepOutputDir st p).epsSpatial = p.epsSpatial := by
  unfold stepOutputDir
  repeat' split
  all_goals rfl

theorem stepOutputDir_epsTemporal (st : CmdLocals) (p : configParameters) :
    (stepOutputDir st p).epsTemporal = p.epsTemporal := by
  unfold stepOutputDir
  repeat' split
  all_goals rfl

theorem stepOutputDir_minPts (st : CmdLocals) (p : configParameters) :
    (stepOutputDir st p).minPts = p.minPts := by
  unfold stepOutputDir
  repeat' split
  all_goals rfl

theorem stepOutputDir_queryRegion (st : CmdLocals) (p : configParameters) :
    (stepOutputDir st p).queryRegion = p.queryRegion := by
  unfold stepOutputDir
  repeat' split
  all_goals rfl

theorem applyVerbose_verboseLevel (st : CmdLocals) (p : configParameters) :
    (applyVerbose st p).verboseLevel
      = if 0 ≤ st.verboseLevel ∧ st.verboseLevel ≤ 3 then st.verboseLevel
        else p.verboseLevel := by
  unfold applyVerbose
  split <;> simp_all

theorem applyVerbose_batchMode (st : CmdLocals) (p : configParameters) :
    (applyVerbose st p).batchMode = p.batchMode := by
  unfold applyVerbose
  split <;> rfl

theorem applyVerbose_maxPacketsToRead (st : CmdLocals) (p : configParameters) :
    (applyVerbose st p).maxPacketsToRead = p.maxPacketsToRead := by
  unfold applyVerbose
  split <;> rfl

theorem applyVerbose_epsSpatial (st : CmdLocals) (p : configParameters) :
    (applyVerbose st p).epsSpatial = p.epsSpatial := by
  unfold applyVerbose
  split <;> rfl

theorem applyVerbose_epsTemporal (st : CmdLocals) (p : configParameters) :
    (applyVerbose st p).epsTemporal = p.epsTemporal := by
  unfold applyVerbose
  split <;> rfl

theorem applyVerbose_minPts (st : CmdLocals) (p : configParameters) :
    (applyVerbose st p).minPts = p.minPts := by
  unfold applyVerbose
  split <;> rfl

theorem applyVerbose_queryRegion (st : CmdLocals) (p : configParameters) :
    (applyVerbose st p).queryRegion = p.queryRegion := by
  unfold applyVerbose
  split <;> rfl

theorem applyBools_verboseLevel (st : CmdLocals) (p : configParameters) :
    (applyBools st p).verboseLevel = p.verboseLevel := rfl

theorem applyBools_batchMode (st : CmdLocals) (p : configParameters) :
    (applyBools st p).batchMode = p.batchMode := rfl

theorem applyBools_maxPacketsToRead (st : CmdLocals) (p : configParameters) :
    (applyBools st p).maxPacketsToRead = p.maxPacketsToRead := rfl

theorem applyBools_epsSpatial (st : CmdLocals) (p : configParameters) :
    (applyBools st p).epsSpatial = p.epsSpatial := rfl

theorem applyBools_epsTemporal (st : CmdLocals) (p : configParameters) :
    (applyBools st p).epsTemporal = p.epsTemporal := rfl

theorem applyBools_minPts (st : CmdLocals) (p : configParameters) :
    (applyBools st p).minPts = p.minPts := rfl

theorem applyBools_queryRegion (st : CmdLocals) (p : configParameters) :
    (applyBools st p).queryRegion = p.queryRegion := rfl

theorem applyNumerics_verboseLevel (st : CmdLocals) (p : configParameters) :
    (applyNumerics st p).verboseLevel = p.verboseLevel := rfl

theorem applyNumerics_batchMode (st : CmdLocals) (p : configParameters) :
    (applyNumerics st p).batchMode = p.batchMode := rfl

theorem applyNumerics_maxPacketsToRead (st : CmdLocals) (p : configParameters) :
    (applyNumerics st p).maxPacketsToRead
      = if 0 < st.maxPackets then st.maxPackets else p.maxPacketsToRead := rfl

theorem applyNumerics_epsSpatial (st : CmdLocals) (p : configParameters) :
    (applyNumerics st p).epsSpatial
      = if 0 < st.epsSpatial then st.epsSpatial else p.epsSpatial := rfl

theorem applyNumerics_epsTemporal (st : CmdLocals) (p : configParameters) :
    (applyNumerics st p).epsTemporal
      = if 0 < st.epsTemporal then st.epsTemporal else p.epsTemporal := rfl

theorem applyNumerics_minPts (st : CmdLocals) (p : configParameters) :
    (applyNumerics st p).minPts
      = if 0 < st.minPts then st.minPts else p.minPts := rfl

theorem applyNumerics_queryRegion (st : CmdLocals) (p : configParameters) :
    (applyNumerics st p).queryRegion
      = if 0 < st.queryRegion then st.queryRegion else p.queryRegion := rfl

theorem parseFinish_config_verboseLevel (st : CmdLocals) (p0 : configParameters)
    (m : List String) (c : configParameters) :
    (parseFinish st p0 m c).config.verboseLevel
      = if 0 ≤ st.verboseLevel ∧ st.verboseLevel ≤ 3 then st.verboseLevel
        else p0.verboseLevel := by
  show (applyNumerics st (applyBools st (applyVerbose st (stepOutputDir st p0)))).verboseLevel = _
  rw [applyNumerics_verboseLevel, applyBools_verboseLevel, applyVerbose_verboseLevel,
    stepOutputDir_verboseLevel]

theorem parseFinish_config_batchMode (st : CmdLocals) (p0 : configParameters)
    (m : List String) (c : configParameters) :
    (parseFinish st p0 m c).config.batchMode = p0.batchMode := by
  show (applyNumerics st (applyBools st (applyVerbose st (stepOutputDir st p0)))).batchMode = _
  rw [applyNumerics_batchMode, applyBools_batchMode, applyVerbose_batchMode,
    stepOutputDir_batchMode]

theorem parseFinish_config_maxPacketsToRead (st : CmdLocals) (p0 : configParameters)
    (m : List String) (c : configParameters) :
    (parseFinish st p0 m c).config.maxPacketsToRead
      = if 0 < st.maxPackets then st.maxPackets else p0.maxPacketsToRead := by
  show (applyNumerics st (applyBools st (applyVerbose st (stepOutputDir st p0)))).maxPacketsToRead = _
  rw [applyNumerics_maxPacketsToRead, applyBools_maxPacketsToRead,
    applyVerbose_maxPacketsToRead, stepOutputDir_maxPacketsToRead]

theorem parseFinish_config_epsSpatial (st : CmdLocals) (p0 : configParameters)
    (m : List String) (c : configParameters) :
    (parseFinish st p0 m c).config.epsSpatial
      = if 0 < st.epsSpatial then st.epsSpatial else p0.epsSpatial := by
  show (applyNumerics st (applyBools st (applyVerbose st (stepOutputDir st p0)))).epsSpatial = _
  rw [applyNumerics_epsSpatial, applyBools_epsSpatial, applyVerbose_epsSpatial,
    stepOutputDir_epsSpatial]

theorem parseFinish_config_epsTemporal (st : CmdLocals) (p0 : configParameters)
    (m : List String) (c : configParameters) :
    (parseFinish st p0 m c).config.epsTemporal
      = if 0 < st.epsTemporal then st.epsTemporal else p0.epsTemporal := by
  show (applyNumerics st (applyBools st (applyVerbose st (stepOutputDir st p0)))).epsTemporal = _
  rw [applyNumerics_epsTemporal, applyBools_epsTemporal, applyVerbose_epsTemporal,
    stepOutputDir_epsTemporal]

theorem parseFinish_config_minPts (st : CmdLocals) (p0 : configParameters)
    (m : List String) (c : configParameters) :
    (parseFinish st p0 m c).config.minPts
      = if 0 < st.minPts then st.minPts else p0.minPts := by
  show (applyNumerics st (applyBools st (applyVerbose st (stepOutputDir st p0)))).minPts = _
  rw [applyNumerics_minPts, applyBools_minPts, applyVerbose_minPts, stepOutputDir_minPts]

theorem parseFinish_config_queryRegion (st : CmdLocals) (p0 : configParameters)
    (m : List String) (c : configParameters) :
    (parseFinish st p0 m c).config.queryRegion
      = if 0 < st.queryRegion then st.queryRegion else p0.queryRegion := by
  show (applyNumerics st (applyBools st (applyVerbose st (stepOutputDir st p0)))).queryRegion = _
  rw [applyNumerics_queryRegion, applyBools_queryRegion, applyVerbose_queryRegion,
    stepOutputDir_queryRegion]

theorem parseFinish_messages_warn (st : CmdLocals) (p0 : configParameters)
    (m : List String) (c : configParameters)
    (h : ¬(0 ≤ st.verboseLevel ∧ st.verboseLevel ≤ 3)) :
    invalidVerboseMsg st.verboseLevel p0.verboseLevel
      ∈ (parseFinish st p0 m c).messages := by
  show _ ∈ m ++ verboseMsgs st (stepOutputDir st p0) ++ boolsMsgs st ++ numericsMsgs st
  have hv : verboseMsgs st (stepOutputDir st p0)
      = [invalidVerboseMsg st.verboseLevel p0.verboseLevel] := by
    unfold verboseMsgs
    rw [if_neg h, stepOutputDir_verboseLevel]
  rw [hv]
  simp [List.mem_append]

theorem configFoldl_batchMode (pd : String → Option Rat) :
    ∀ (lines : List String) (acc : configParameters × List String),
      ((lines.foldl (configLineStep pd) acc).1).batchMode = acc.1.batchMode := by
  intro lines
  induction lines with
  | nil => intro acc; rfl
  | cons line rest ih =>
    intro acc
    rw [List.foldl_cons, ih]
    exact processConfigLine_batchMode pd acc.1 line

theorem readConfigFile_batchMode (pd : String → Option Rat) (lines : List String)
    (params : configParameters) :
    ((readConfigFile pd lines params).2.1).batchMode = params.batchMode :=
  configFoldl_batchMode pd lines (params, [])

theorem parseInputPaths_success (fs : String → Bool) (st : CmdLocals)
    (params : configParameters) (msgs : List String)
    (hr : (parseInputPaths fs st params msgs).success = true) :
    (st.inputFile ≠ "" ∧ fs st.inputFile = true
        ∧ hasExtension st.inputFile ".tpx3" = true
        ∧ parseInputPaths fs st params msgs
          = parseFinish st
              { params with
                rawTPX3File := getFilename st.inputFile,
                rawTPX3Folder := getDirectoryPath st.inputFile,
                runHandle := grabRunHandle (getFilename st.inputFile),
                batchMode := false } msgs params)
    ∨ (st.inputFile = "" ∧ st.inputDir ≠ ""
        ∧ parseInputPaths fs st params msgs
          = parseFinish st
              { params with
                rawTPX3Folder := st.inputDir, rawTPX3File := "ALL",
                batchMode := true } msgs params)
    ∨ (st.inputFile = "" ∧ st.inputDir = ""
        ∧ parseInputPaths fs st params msgs = parseFinish st params msgs params) := by
  unfold parseInputPaths at hr ⊢
  by_cases h1 : st.inputFile ≠ ""
  · rw [if_pos h1] at hr ⊢
    by_cases h2 : fs st.inputFile = false
    · rw [if_pos h2] at hr
      exact Bool.noConfusion hr
    · rw [if_neg h2] at hr ⊢
      by_cases h3 : hasExtension st.inputFile ".tpx3" = false
      · rw [if_pos h3] at hr
        exact Bool.noConfusion hr
      · rw [if_neg h3] at hr ⊢
        have h2t : fs st.inputFile = true := by
          cases hfs : fs st.inputFile
          · exact absurd hfs h2
          · rfl
        have h3t : hasExtension st.inputFile ".tpx3" = true := by
          cases hext : hasExtension st.inputFile ".tpx3"
          · exact absurd hext h3
          · rfl
        exact Or.inl ⟨h1, h2t, h3t, rfl⟩
  · rw [if_neg h1] at hr ⊢
    have he : st.inputFile = "" := not_ne_iff.mp h1
    by_cases h4 : st.inputDir ≠ ""
    · rw [if_pos h4] at hr ⊢
      exact Or.inr (Or.inl ⟨he, h4, rfl⟩)
    · rw [if_neg h4] at hr ⊢
      exact Or.inr (Or.inr ⟨he, not_ne_iff.mp h4, rfl⟩)

theorem parseValidate_success (fs : String → Bool) (st : CmdLocals)
    (params : configParameters) (msgs : List String)
    (hr : (parseValidate fs st params msgs).success = true) :
    parseValidate fs st params msgs = parseInputPaths fs st params msgs ∧
    ¬(st.inputFile ≠ "" ∧ st.inputDir ≠ "") := by
  unfold parseValidate at hr ⊢
  by_cases h1 : st.inputFile = "" ∧ st.inputDir = "" ∧ st.configFile = ""
  · rw [if_pos h1] at hr
    exact Bool.noConfusion hr
  · rw [if_neg h1] at hr ⊢
    by_cases h2 : st.inputFile ≠ "" ∧ st.inputDir ≠ ""
    · rw [if_pos h2] at hr
      exact Bool.noConfusion hr
    · rw [if_neg h2] at hr ⊢
      exact ⟨rfl, h2⟩

theorem parse_success_cases (fs : String → Bool)
    (files : String → Option (List String)) (pd sd : String → Option Rat)
    (args : List String)
    (hr : (parseCommandLineFlags fs files pd sd args).success = true) :
    ∃ st params msgs,
      cmdLoop sd args initCmdLocals = LoopOut.done st ∧
      params.batchMode = false ∧
      (st.configFile = "" → params = createDefaultConfig) ∧
      parseCommandLineFlags fs files pd sd args = parseValidate fs st params msgs := by
  cases hcl : cmdLoop sd args initCmdLocals with
  | helpRequested h st =>
    unfold parseCommandLineFlags at hr
    rw [hcl] at hr
    exact Bool.noConfusion hr
  | unknownOption a st =>
    unfold parseCommandLineFlags at hr
    rw [hcl] at hr
    exact Bool.noConfusion hr
  | done st =>
    unfold parseCommandLineFlags at hr
    rw [hcl] at hr
    replace hr : (parsePostLoop fs files pd st).success = true := hr
    have hparse : parseCommandLineFlags fs files pd sd args = parsePostLoop fs files pd st := by
      unfold parseCommandLineFlags
      rw [hcl]
    unfold parsePostLoop at hr hparse
    by_cases hc : st.configFile = ""
    · rw [if_pos hc] at hr hparse
      exact ⟨st, createDefaultConfig, [], rfl, rfl, fun _ => rfl, hparse⟩
    · rw [if_neg hc] at hr hparse
      cases hf : files st.configFile with
      | none =>
        rw [hf] at hr
        exact Bool.noConfusion hr
      | some contents =>
        rw [hf] at hr hparse
        refine ⟨st, (readConfigFile pd contents createDefaultConfig).2.1,
          (readConfigFile pd contents createDefaultConfig).2.2
            ++ ["Loaded configuration from: " ++ st.configFile],
          rfl, ?_, fun hc0 => absurd hc0 hc, ?_⟩
        · rw [readConfigFile_batchMode]
          rfl
        · exact hparse

theorem parseFinish_success (st : CmdLocals) (p0 : configParameters)
    (m : List String) (c : configParameters) :
    (parseFinish st p0 m c).success = true := rfl

theorem parseFinish_finalLocals (st : CmdLocals) (p0 : configParameters)
    (m : List String) (c : configParameters) :
    (parseFinish st p0 m c).finalLocals = st := rfl

theorem parseFinish_configAfterFile (st : CmdLocals) (p0 : configParameters)
    (m : List String) (c : configParameters) :
    (parseFinish st p0 m c).configAfterFile = c := rfl

/-- Claim C5: whenever `parseCommandLineFlags` succeeds with a named single
input file (`-i`/`--inputFile`), that file exists and carries the `.tpx3`
extension; equivalently, a missing or wrongly-named input file makes the
parse return `false` before any file processing starts. -/
theorem c5_input_file_validated (fs : String → Bool)
    (files : String → Option (List String)) (pd sd : String → Option Rat)
    (args : List String)
    (hok : (parseCommandLineFlags fs files pd sd args).success = true)
    (hne : (parseCommandLineFlags fs files pd sd args).finalLocals.inputFile ≠ "") :
    fs ((parseCommandLineFlags fs files pd sd args).finalLocals.inputFile) = true ∧
    hasExtension ((parseCommandLineFlags fs files pd sd args).finalLocals.inputFile)
      ".tpx3" = true := by
  obtain ⟨st, params, msgs, hcl, hbm, hdef, heq⟩ :=
    parse_success_cases fs files pd sd args hok
  rw [heq] at hok hne ⊢
  obtain ⟨hv2, hnb⟩ := parseValidate_success fs st params msgs hok
  rw [hv2] at hok hne ⊢
  rcases parseInputPaths_success fs st params msgs hok with
    ⟨h1, h2, h3, heqf⟩ | ⟨h1, h4, heqf⟩ | ⟨h1, h4, heqf⟩
  · rw [heqf, parseFinish_finalLocals]
    exact ⟨h2, h3⟩
  · rw [heqf, parseFinish_finalLocals] at hne
    exact absurd h1 hne
  · rw [heqf, parseFinish_finalLocals] at hne
    exact absurd h1 hne

/-- A filesystem oracle on which exactly one file exists. -/
def fsOnly (name : String) : String → Bool := fun s => s == name

/-- A filesystem-content oracle with no readable config files. -/
def noFiles : String → Option (List String) := fun _ => none

/-- A double parser that always fails (used for concrete witnesses that pass
no floating-point values). -/
def noRat : String → Option Rat := fun _ => none

/-- Witness for `c5_input_file_validated` at a concrete invocation. -/
theorem c5_input_file_validated_witness :
    fsOnly "run.tpx3" ((parseCommandLineFlags (fsOnly "run.tpx3") noFiles noRat
        noRat ["-i", "run.tpx3"]).finalLocals.inputFile) = true ∧
    hasExtension ((parseCommandLineFlags (fsOnly "run.tpx3") noFiles noRat
        noRat ["-i", "run.tpx3"]).finalLocals.inputFile) ".tpx3" = true :=
  c5_input_file_validated (fsOnly "run.tpx3") noFiles noRat noRat
    ["-i", "run.tpx3"] (by decide) (by decide)

/-- Claim C9: `readConfigFile` never modifies `batchMode` (in particular not
for `rawTPX3File` values `ALL`/`all`/empty), and in a successful parse
`batchMode` is `true` exactly when an input directory was supplied with
`-I`/`--inputDir`. -/
theorem c9_batchMode_only_from_inputDir :
    (∀ (pd : String → Option Rat) (lines : List String) (params : configParameters),
      ((readConfigFile pd lines params).2.1).batchMode = params.batchMode) ∧
    (∀ (fs : String → Bool) (files : String → Option (List String))
        (pd sd : String → Option Rat) (args : List String),
      (parseCommandLineFlags fs files pd sd args).success = true →
      ((parseCommandLineFlags fs files pd sd args).config.batchMode = true ↔
        (parseCommandLineFlags fs files pd sd args).finalLocals.inputDir ≠ "")) := by
  refine ⟨readConfigFile_batchMode, ?_⟩
  intro fs files pd sd args hok
  obtain ⟨st, params, msgs, hcl, hbm, hdef, heq⟩ :=
    parse_success_cases fs files pd sd args hok
  rw [heq] at hok ⊢
  obtain ⟨hv2, hnb⟩ := parseValidate_success fs st params msgs hok
  rw [hv2] at hok ⊢
  rcases parseInputPaths_success fs st params msgs hok with
    ⟨h1, h2, h3, heqf⟩ | ⟨h1, h4, heqf⟩ | ⟨h1, h4, heqf⟩
  · rw [heqf, parseFinish_finalLocals, parseFinish_config_batchMode]
    have hdir : st.inputDir = "" := by
      by_contra hd
      exact hnb ⟨h1, hd⟩
    constructor
    · intro hfalse
      exact absurd hfalse (by simp)
    · intro hd
      exact absurd hdir hd
  · rw [heqf, parseFinish_finalLocals, parseFinish_config_batchMode]
    simp [h4]
  · rw [heqf, parseFinish_finalLocals, parseFinish_config_batchMode, hbm]
    simp [h4]

/-- Witness for `c9_batchMode_only_from_inputDir` at concrete inputs. -/
theorem c9_batchMode_only_from_inputDir_witness :
    ((readConfigFile noRat ["rawTPX3File = ALL"] createDefaultConfig).2.1).batchMode
        = createDefaultConfig.batchMode ∧
    ((parseCommandLineFlags (fsOnly "x.tpx3") noFiles noRat noRat
        ["-I", "indir"]).config.batchMode = true ↔
      (parseCommandLineFlags (fsOnly "x.tpx3") noFiles noRat noRat
        ["-I", "indir"]).finalLocals.inputDir ≠ "") :=
  ⟨c9_batchMode_only_from_inputDir.1 noRat ["rawTPX3File = ALL"] createDefaultConfig,
   c9_batchMode_only_from_inputDir.2 (fsOnly "x.tpx3") noFiles noRat noRat
     ["-I", "indir"] (by decide)⟩

/-- The loop locals produced by the argument vector `['-i', f, '-v', v]`. -/
def inputFileVerboseLocals (f v : String) : CmdLocals :=
  { initCmdLocals with inputFile := f, verboseLevel := parseIntOrDefault v 1 }

/-- Claim C6: in every invocation that completes flag parsing successfully, a
parsed verbose level in 0..3 is applied to the configuration; a level outside
0..3 leaves `configParams.verboseLevel` at the value it had after the optional
config-file read (the default 1 when no config file was named) and emits a
warning; and an invalid verbosity value never makes parsing abort (a run that
is otherwise valid still returns `true` whatever the `-v` argument is). -/
theorem c6_verbose_level_policy :
    (∀ (fs : String → Bool) (files : String → Option (List String))
        (pd sd : String → Option Rat) (args : List String),
      (parseCommandLineFlags fs files pd sd args).success = true →
      ((0 ≤ (parseCommandLineFlags fs files pd sd args).finalLocals.verboseLevel ∧
          (parseCommandLineFlags fs files pd sd args).finalLocals.verboseLevel ≤ 3 →
        (parseCommandLineFlags fs files pd sd args).config.verboseLevel
          = (parseCommandLineFlags fs files pd sd args).finalLocals.verboseLevel) ∧
      (¬(0 ≤ (parseCommandLineFlags fs files pd sd args).finalLocals.verboseLevel ∧
          (parseCommandLineFlags fs files pd sd args).finalLocals.verboseLevel ≤ 3) →
        (parseCommandLineFlags fs files pd sd args).config.verboseLevel
            = (parseCommandLineFlags fs files pd sd args).configAfterFile.verboseLevel ∧
        invalidVerboseMsg
            (parseCommandLineFlags fs files pd sd args).finalLocals.verboseLevel
            (parseCommandLineFlags fs files pd sd args).configAfterFile.verboseLevel
          ∈ (parseCommandLineFlags fs files pd sd args).messages) ∧
      ((parseCommandLineFlags fs files pd sd args).finalLocals.configFile = "" →
        (parseCommandLineFlags fs files pd sd args).configAfterFile
          = createDefaultConfig))) ∧
    (∀ (fs : String → Bool) (files : String → Option (List String))
        (pd sd : String → Option Rat) (f v : String),
      f ≠ "" → fs f = true → hasExtension f ".tpx3" = true →
      (parseCommandLineFlags fs files pd sd ["-i", f, "-v", v]).success = true) := by
  constructor
  · intro fs files pd sd args hok
    obtain ⟨st, params, msgs, hcl, hbm, hdef, heq⟩ :=
      parse_success_cases fs files pd sd args hok
    rw [heq] at hok ⊢
    obtain ⟨hv2, hnb⟩ := parseValidate_success fs st params msgs hok
    rw [hv2] at hok ⊢
    rcases parseInputPaths_success fs st params msgs hok with
      ⟨h1, h2, h3, heqf⟩ | ⟨h1, h4, heqf⟩ | ⟨h1, h4, heqf⟩
    · rw [heqf, parseFinish_finalLocals, parseFinish_configAfterFile,
        parseFinish_config_verboseLevel]
      refine ⟨fun hin => ?_, fun hout => ⟨?_, ?_⟩, fun hcf => hdef hcf⟩
      · rw [if_pos hin]
      · rw [if_neg hout]
      · exact parseFinish_messages_warn st _ msgs params hout
    · rw [heqf, parseFinish_finalLocals, parseFinish_configAfterFile,
        parseFinish_config_verboseLevel]
      refine ⟨fun hin => ?_, fun hout => ⟨?_, ?_⟩, fun hcf => hdef hcf⟩
      · rw [if_pos hin]
      · rw [if_neg hout]
      · exact parseFinish_messages_warn st _ msgs params hout
    · rw [heqf, parseFinish_finalLocals, parseFinish_configAfterFile,
        parseFinish_config_verboseLevel]
      refine ⟨fun hin => ?_, fun hout => ⟨?_, ?_⟩, fun hcf => hdef hcf⟩
      · rw [if_pos hin]
      · rw [if_neg hout]
      · exact parseFinish_messages_warn st _ msgs params hout
  · intro fs files pd sd f v hf hfs hext
    have hcl : cmdLoop sd ["-i", f, "-v", v] initCmdLocals
        = LoopOut.done (inputFileVerboseLocals f v) := rfl
    unfold parseCommandLineFlags
    rw [hcl]
    show (parsePostLoop fs files pd (inputFileVerboseLocals f v)).success = true
    unfold parsePostLoop
    rw [if_pos (show (inputFileVerboseLocals f v).configFile = "" by rfl)]
    unfold parseValidate
    rw [if_neg (fun hcon => hf hcon.1)]
    rw [if_neg (fun hcon => hcon.2 rfl)]
    unfold parseInputPaths
    rw [if_pos (show (inputFileVerboseLocals f v).inputFile ≠ "" from hf)]
    have hstf : (inputFileVerboseLocals f v).inputFile = f := rfl
    rw [hstf, hfs]
    rw [if_neg (by decide : ¬(true = false))]
    rw [hext]
    rw [if_neg (by decide : ¬(true = false))]
    exact parseFinish_success _ _ _ _

/-- Witness for `c6_verbose_level_policy` at concrete invocations (`-v 2`
applied, `-v 7` warned and defaulted, `-v junk` does not abort). -/
theorem c6_verbose_level_policy_witness :
    ((parseCommandLineFlags (fsOnly "d.tpx3") noFiles noRat noRat
        ["-i", "d.tpx3", "-v", "2"]).config.verboseLevel
      = (parseCommandLineFlags (fsOnly "d.tpx3") noFiles noRat noRat
        ["-i", "d.tpx3", "-v", "2"]).finalLocals.verboseLevel) ∧
    ((parseCommandLineFlags (fsOnly "d.tpx3") noFiles noRat noRat
        ["-i", "d.tpx3", "-v", "7"]).config.verboseLevel
      = (parseCommandLineFlags (fsOnly "d.tpx3") noFiles noRat noRat
        ["-i", "d.tpx3", "-v", "7"]).configAfterFile.verboseLevel ∧
      invalidVerboseMsg
        (parseCommandLineFlags (fsOnly "d.tpx3") noFiles noRat noRat
          ["-i", "d.tpx3", "-v", "7"]).finalLocals.verboseLevel
        (parseCommandLineFlags (fsOnly "d.tpx3") noFiles noRat noRat
          ["-i", "d.tpx3", "-v", "7"]).configAfterFile.verboseLevel
        ∈ (parseCommandLineFlags (fsOnly "d.tpx3") noFiles noRat noRat
          ["-i", "d.tpx3", "-v", "7"]).messages) ∧
    (parseCommandLineFlags (fsOnly "d.tpx3") noFiles noRat noRat
        ["-i", "d.tpx3", "-v", "junk"]).success = true :=
  ⟨(c6_verbose_level_policy.1 (fsOnly "d.tpx3") noFiles noRat noRat
      ["-i", "d.tpx3", "-v", "2"] (by decide)).1 (by decide),
   (c6_verbose_level_policy.1 (fsOnly "d.tpx3") noFiles noRat noRat
      ["-i", "d.tpx3", "-v", "7"] (by decide)).2.1 (by decide),
   c6_verbose_level_policy.2 (fsOnly "d.tpx3") noFiles noRat noRat
     "d.tpx3" "junk" (by decide) (by decide) (by decide)⟩

/-- Claim C7, counterexample: with the unparsable verbosity argument `abc`,
`parseIntOrDefault` substitutes the default 1 silently: the parse succeeds,
the configuration gets verbose level 1, and not a single line is printed, so
the substitution is not reported to the user. -/
theorem c7_silent_default_counterexample :
    stoiOpt "abc" = none ∧
    (parseCommandLineFlags (fsOnly "data.tpx3") noFiles noRat noRat
        ["-i", "data.tpx3", "-v", "abc"]).success = true ∧
    (parseCommandLineFlags (fsOnly "data.tpx3") noFiles noRat noRat
        ["-i", "data.tpx3", "-v", "abc"]).config.verboseLevel = 1 ∧
    (parseCommandLineFlags (fsOnly "data.tpx3") noFiles noRat noRat
        ["-i", "data.tpx3", "-v", "abc"]).messages = [] :=
  ⟨by decide, by decide, by decide, by decide⟩

/-- Claim C7, amended: an unparsable `-v` argument is replaced by the default
silently: the entire parse result (configuration, return value and every
printed line) is identical to passing the default `1` explicitly, so no
defaulted condition is reported; only a parsed verbose level outside 0..3
produces a warning (see C6). -/
theorem c7_unparsable_verbose_silently_defaults (fs : String → Bool)
    (files : String → Option (List String)) (pd sd : String → Option Rat)
    (f bad : String) (h : stoiOpt bad = none) :
    parseCommandLineFlags fs files pd sd ["-i", f, "-v", bad]
      = parseCommandLineFlags fs files pd sd ["-i", f, "-v", "1"] := by
  have h1 : cmdLoop sd ["-i", f, "-v", bad] initCmdLocals
      = LoopOut.done (inputFileVerboseLocals f bad) := rfl
  have h2 : cmdLoop sd ["-i", f, "-v", "1"] initCmdLocals
      = LoopOut.done (inputFileVerboseLocals f "1") := rfl
  have h3 : inputFileVerboseLocals f bad = inputFileVerboseLocals f "1" := by
    unfold inputFileVerboseLocals
    rw [show parseIntOrDefault bad 1 = 1 from by unfold parseIntOrDefault; rw [h]; rfl,
      show parseIntOrDefault "1" 1 = 1 from by decide]
  unfold parseCommandLineFlags
  rw [h1, h2, h3]

/-- Witness for `c7_unparsable_verbose_silently_defaults` at a concrete
unparsable argument. -/
theorem c7_unparsable_verbose_silently_defaults_witness :
    parseCommandLineFlags (fsOnly "data.tpx3") noFiles noRat noRat
        ["-i", "data.tpx3", "-v", "zz9"]
      = parseCommandLineFlags (fsOnly "data.tpx3") noFiles noRat noRat
        ["-i", "data.tpx3", "-v", "1"] :=
  c7_unparsable_verbose_silently_defaults (fsOnly "data.tpx3") noFiles noRat
    noRat "data.tpx3" "zz9" (by decide)

theorem parseFinish_numeric_claims (st : CmdLocals) (p0 : configParameters)
    (m : List String) (c : configParameters)
    (hmp : p0.maxPacketsToRead = c.maxPacketsToRead)
    (hes : p0.epsSpatial = c.epsSpatial) (het : p0.epsTemporal = c.epsTemporal)
    (hmn : p0.minPts = c.minPts) (hqr : p0.queryRegion = c.queryRegion) :
    ((st.maxPackets = 0 →
        (parseFinish st p0 m c).config.maxPacketsToRead = c.maxPacketsToRead) ∧
      (0 < st.maxPackets →
        (parseFinish st p0 m c).config.maxPacketsToRead = st.maxPackets)) ∧
    ((st.epsSpatial = 0 →
        (parseFinish st p0 m c).config.epsSpatial = c.epsSpatial) ∧
      (0 < st.epsSpatial →
        (parseFinish st p0 m c).config.epsSpatial = st.epsSpatial)) ∧
    ((¬ 0 < st.epsTemporal →
        (parseFinish st p0 m c).config.epsTemporal = c.epsTemporal) ∧
      (0 < st.epsTemporal →
        (parseFinish st p0 m c).config.epsTemporal = st.epsTemporal)) ∧
    ((st.minPts = 0 → (parseFinish st p0 m c).config.minPts = c.minPts) ∧
      (0 < st.minPts → (parseFinish st p0 m c).config.minPts = st.minPts)) ∧
    ((st.queryRegion = 0 →
        (parseFinish st p0 m c).config.queryRegion = c.queryRegion) ∧
      (0 < st.queryRegion →
        (parseFinish st p0 m c).config.queryRegion = st.queryRegion)) ∧
    ((parseFinish st p0 m c).config.epsSpatial = c.epsSpatial ∨
      0 < (parseFinish st p0 m c).config.epsSpatial) := by
  rw [parseFinish_config_maxPacketsToRead, parseFinish_config_epsSpatial,
    parseFinish_config_epsTemporal, parseFinish_config_minPts,
    parseFinish_config_queryRegion]
  refine ⟨⟨fun h0 => ?_, fun hp => ?_⟩, ⟨fun h0 => ?_, fun hp => ?_⟩,
    ⟨fun h0 => ?_, fun hp => ?_⟩, ⟨fun h0 => ?_, fun hp => ?_⟩,
    ⟨fun h0 => ?_, fun hp => ?_⟩, ?_⟩
  · rw [if_neg (by omega), hmp]
  · rw [if_pos hp]
  · rw [if_neg (by omega), hes]
  · rw [if_pos hp]
  · rw [if_neg h0, het]
  · rw [if_pos hp]
  · rw [if_neg (by omega), hmn]
  · rw [if_pos hp]
  · rw [if_neg (by omega), hqr]
  · rw [if_pos hp]
  · by_cases hp : 0 < st.epsSpatial
    · right
      rw [if_pos hp]
      exact hp
    · left
      rw [if_neg hp, hes]

/-- Claim C8: in every successful parse, each numeric clustering/limit flag
whose parsed-and-cast loop value is zero (a supplied `0`, an unparsable
argument defaulting to 0, or a value whose narrowing cast yields 0) leaves its
configuration field at the default or config-file value; only a strictly
positive loop value overrides the field, so `epsSpatial = 0` cannot be
selected from the command line; and an unparsable or zero argument indeed
produces a zero loop value through `parseIntOrDefault` and the casts. -/
theorem c8_numeric_flags_zero_keeps_default :
    (∀ (fs : String → Bool) (files : String → Option (List String))
        (pd sd : String → Option Rat) (args : List String),
      (parseCommandLineFlags fs files pd sd args).success = true →
      (((parseCommandLineFlags fs files pd sd args).finalLocals.maxPackets = 0 →
          (parseCommandLineFlags fs files pd sd args).config.maxPacketsToRead
            = (parseCommandLineFlags fs files pd sd args).configAfterFile.maxPacketsToRead) ∧
        (0 < (parseCommandLineFlags fs files pd sd args).finalLocals.maxPackets →
          (parseCommandLineFlags fs files pd sd args).config.maxPacketsToRead
            = (parseCommandLineFlags fs files pd sd args).finalLocals.maxPackets)) ∧
      (((parseCommandLineFlags fs files pd sd args).finalLocals.epsSpatial = 0 →
          (parseCommandLineFlags fs files pd sd args).config.epsSpatial
            = (parseCommandLineFlags fs files pd sd args).configAfterFile.epsSpatial) ∧
        (0 < (parseCommandLineFlags fs files pd sd args).finalLocals.epsSpatial →
          (parseCommandLineFlags fs files pd sd args).config.epsSpatial
            = (parseCommandLineFlags fs files pd sd args).finalLocals.epsSpatial)) ∧
      ((¬ 0 < (parseCommandLineFlags fs files pd sd args).finalLocals.epsTemporal →
          (parseCommandLineFlags fs files pd sd args).config.epsTemporal
            = (parseCommandLineFlags fs files pd sd args).configAfterFile.epsTemporal) ∧
        (0 < (parseCommandLineFlags fs files pd sd args).finalLocals.epsTemporal →
          (parseCommandLineFlags fs files pd sd args).config.epsTemporal
            = (parseCommandLineFlags fs files pd sd args).finalLocals.epsTemporal)) ∧
      (((parseCommandLineFlags fs files pd sd args).finalLocals.minPts = 0 →
          (parseCommandLineFlags fs files pd sd args).config.minPts
            = (parseCommandLineFlags fs files pd sd args).configAfterFile.minPts) ∧
        (0 < (parseCommandLineFlags fs files pd sd args).finalLocals.minPts →
          (parseCommandLineFlags fs files pd sd args).config.minPts
            = (parseCommandLineFlags fs files pd sd args).finalLocals.minPts)) ∧
      (((parseCommandLineFlags fs files pd sd args).finalLocals.queryRegion = 0 →
          (parseCommandLineFlags fs files pd sd args).config.queryRegion
            = (parseCommandLineFlags fs files pd sd args).configAfterFile.queryRegion) ∧
        (0 < (parseCommandLineFlags fs files pd sd args).finalLocals.queryRegion →
          (parseCommandLineFlags fs files pd sd args).config.queryRegion
            = (parseCommandLineFlags fs files pd sd args).finalLocals.queryRegion)) ∧
      ((parseCommandLineFlags fs files pd sd args).config.epsSpatial
          = (parseCommandLineFlags fs files pd sd args).configAfterFile.epsSpatial ∨
        0 < (parseCommandLineFlags fs files pd sd args).config.epsSpatial)) ∧
    toUInt8Nat (parseIntOrDefault "0" 0) = 0 ∧
    (∀ s, stoiOpt s = none →
      toUInt8Nat (parseIntOrDefault s 0) = 0 ∧
      toUInt16Nat (parseIntOrDefault s 0) = 0 ∧
      toUInt32Int (parseIntOrDefault s 0) = 0) := by
  refine ⟨?_, by decide, ?_⟩
  · intro fs files pd sd args hok
    obtain ⟨st, params, msgs, hcl, hbm, hdef, heq⟩ :=
      parse_success_cases fs files pd sd args hok
    rw [heq] at hok ⊢
    obtain ⟨hv2, hnb⟩ := parseValidate_success fs st params msgs hok
    rw [hv2] at hok ⊢
    rcases parseInputPaths_success fs st params msgs hok with
      ⟨h1, h2, h3, heqf⟩ | ⟨h1, h4, heqf⟩ | ⟨h1, h4, heqf⟩
    · rw [heqf, parseFinish_finalLocals, parseFinish_configAfterFile]
      exact parseFinish_numeric_claims st _ msgs params rfl rfl rfl rfl rfl
    · rw [heqf, parseFinish_finalLocals, parseFinish_configAfterFile]
      exact parseFinish_numeric_claims st _ msgs params rfl rfl rfl rfl rfl
    · rw [heqf, parseFinish_finalLocals, parseFinish_configAfterFile]
      exact parseFinish_numeric_claims st _ msgs params rfl rfl rfl rfl rfl
  · intro s h
    unfold parseIntOrDefault
    rw [h]
    exact ⟨rfl, rfl, rfl⟩

/-- Witness for `c8_numeric_flags_zero_keeps_default`: `-S 0` leaves
`epsSpatial` at its default, and an unparsable `-S` argument yields loop
value 0. -/
theorem c8_numeric_flags_zero_keeps_default_witness :
    ((parseCommandLineFlags (fsOnly "d.tpx3") noFiles noRat noRat
        ["-i", "d.tpx3", "-S", "0"]).config.epsSpatial
      = (parseCommandLineFlags (fsOnly "d.tpx3") noFiles noRat noRat
        ["-i", "d.tpx3", "-S", "0"]).configAfterFile.epsSpatial) ∧
    toUInt8Nat (parseIntOrDefault "0" 0) = 0 ∧
    toUInt8Nat (parseIntOrDefault "junk" 0) = 0 :=
  ⟨((c8_numeric_flags_zero_keeps_default.1 (fsOnly "d.tpx3") noFiles noRat noRat
      ["-i", "d.tpx3", "-S", "0"] (by decide)).2.1).1 (by decide),
   c8_numeric_flags_zero_keeps_default.2.1,
   (c8_numeric_flags_zero_keeps_default.2.2 "junk" (by decide)).1⟩
